import Mathlib

/-!
Verification of the TradeMind backend (candle aggregation service).

Shallow embedding of the Python sources under `backend/app`:
* `models/candles.py` — the `Candle` record (float fields modelled as `Rat`;
  every comparison settled below is far from a floating-point tie, so the
  rational model agrees with IEEE-754 on all inputs used in the theorems).
* `services/pattern_detector.py` — `classify_candle`.
* `services/utils.py` — result cache and sliding-window rate limiter.
* `services/historical_provider.py` — `get_historical_candles`.
* `services/candle_poller.py` — `CandlePoller`.
* `services/candle_stream.py` — `stream_candles_to_websocket`.
* `routers/candleRoute.py` — the exception-to-HTTP-status mapping of
  `candles_history`.

Network calls are modelled as oracle functions supplied through an `Env`
record; Redis-backed state is passed explicitly through a `Store` record;
observable actions (cache access, rate-limit checks, upstream fetches) are
recorded in an effect trace so that claims about what happens "before" a
failure are statements about the trace.
-/

/-- `models/candles.py` — `Candle`: `t` unix seconds, OHLCV floats
(modelled as rationals). -/
structure Candle where
  t : Int
  o : Rat
  h : Rat
  l : Rat
  c : Rat
  v : Rat
deriving DecidableEq, Repr

/-- `CandleWithTA` — imported by `historical_provider.py` from
`app.models.candles` but absent from that file (and `ta_calculator.py` is not
in the repository snapshot). Modelled from the spec: "a Candle plus a mapping
of indicator-name → computed value(s)" (spec §3, CandleWithIndicators). -/
structure CandleWithTA where
  candle : Candle
  ta : List (String × Rat)
deriving DecidableEq, Repr

/-- A value returned by the historical resolver. Python is dynamically typed:
the cache-hit path returns plain `Candle` objects (rebuilt by `_cache_get`),
while the fetch path returns `CandleWithTA` objects. -/
inductive RetCandle
  | plain (c : Candle)
  | withTA (c : CandleWithTA)
deriving DecidableEq, Repr

/-! ## Python builtins

`max`, `min` and `abs` are modelled by explicit conditionals so that all
definitions evaluate by kernel reduction. -/

/-- Python `max` on rationals. -/
def rmax (a b : Rat) : Rat := if a ≤ b then b else a

/-- Python `min` on rationals. -/
def rmin (a b : Rat) : Rat := if a ≤ b then a else b

/-- Python `abs` on rationals. -/
def rabs (a : Rat) : Rat := if a < 0 then -a else a

/-- Python `max` on integers. -/
def imax (a b : Int) : Int := if a ≤ b then b else a

/-- Python `str.upper()` (per character; the symbols and provider names in
play are ASCII, where this matches Python). -/
def pyUpper (s : String) : String := ⟨s.data.map Char.toUpper⟩

/-- Python `str.lower()` (per character, ASCII-faithful). -/
def pyLower (s : String) : String := ⟨s.data.map Char.toLower⟩

/-- Lexicographic-by-code-point comparison of character lists. -/
def strLeChars : List Char → List Char → Bool
  | [], _ => true
  | _ :: _, [] => false
  | a :: as, b :: bs =>
    if a < b then true else if b < a then false else strLeChars as bs

/-- Python string `<=` (lexicographic by code point), used by `sorted`. -/
def strLe (a b : String) : Bool := strLeChars a.data b.data

/-- `Except` values are compared structurally (Python object equality on
the modelled outcomes). -/
instance {ε α : Type} [DecidableEq ε] [DecidableEq α] :
    DecidableEq (Except ε α) := fun x y =>
  match x, y with
  | Except.ok a, Except.ok b =>
    if h : a = b then Decidable.isTrue (by rw [h])
    else Decidable.isFalse (by simp [h])
  | Except.error a, Except.error b =>
    if h : a = b then Decidable.isTrue (by rw [h])
    else Decidable.isFalse (by simp [h])
  | Except.ok _, Except.error _ => Decidable.isFalse (by simp)
  | Except.error _, Except.ok _ => Decidable.isFalse (by simp)

/-! ## Pattern detector (`services/pattern_detector.py`) -/

/-- `classify_candle`, translated faithfully. Its first statement (line 16)
is the chained assignment `patterns = List[str] = []`, whose second target
item-assigns `typing.List`; `typing.List` does not support item assignment,
so every call raises `TypeError` before any classification logic runs.
Fallible code is modelled with `Except`; the arguments are unused because
the failure happens before they are read. -/
def classify_candle (latest : Candle) (previous : Option Candle) :
    Except String (List String) :=
  let _ := latest
  let _ := previous
  Except.error "TypeError: item assignment on typing.List"

/-- The body of `classify_candle` under the evident intended first line
`patterns: List[str] = []` (a type annotation instead of a chained
assignment). Everything after line 16 is translated from the source
unchanged: the float literals `0.0000001`, `0.1`, `0.6`, `1.1` become exact
rationals; on every input used below the comparisons are far from ties, so
the rational and float verdicts agree. Note that in the source the
`bullish`/`bearish`/`neutral` fallback is nested inside the
`prev_body > 0 and body > prev_body * 1.1` block. -/
def classify_candle_intended (latest : Candle) (previous : Option Candle) :
    List String :=
  let o := latest.o
  let h := latest.h
  let l := latest.l
  let c := latest.c
  let candle_range := rmax (h - l) (1 / 10000000 : Rat)
  let body := rabs (c - o)
  let upper_shadow := h - rmax o c
  let lower_shadow := rmin o c - l
  let body_frac := body / candle_range
  let upper_frac := upper_shadow / candle_range
  let lower_frac := lower_shadow / candle_range
  let patterns1 : List String :=
    if body_frac < 1 / 10 then
      if upper_frac ≥ 6 / 10 ∧ lower_frac ≤ 1 / 10 then
        ["doji", "gravestone_doji"]
      else if lower_frac ≥ 6 / 10 ∧ upper_frac ≤ 1 / 10 then
        ["doji", "dragonfly_doji"]
      else ["doji"]
    else []
  match previous with
  | none => patterns1
  | some prev =>
    let prev_body := rabs (prev.c - prev.o)
    if prev_body > 0 ∧ body > prev_body * (11 / 10) then
      let patterns2 :=
        patterns1 ++
          (if c > o ∧ prev.c < prev.o ∧ o < prev.c ∧ c > prev.o then
            ["bullish_engulfing"]
          else [])
      if patterns2 = [] then
        patterns2 ++
          (if c > o then ["bullish"]
          else if c < o then ["bearish"]
          else ["neutral"])
      else patterns2
    else patterns1

/-! ## Rate limiter (`services/utils.py`, `_rate_limit_check`)

The Redis sorted set `rl:{provider}` stores one member per request, the
member string being the millisecond timestamp and the score its numeric
value; it is modelled as a `Finset Int` of millisecond timestamps (one
member per distinct timestamp, exactly as in Redis). Each check runs the
pipeline: `zremrangebyscore key 0 window_start`, `zadd key {now: now}`,
`zcard key`; if the count exceeds `RATE_LIMIT_PER_MINUTE` the member just
added is removed with `zrem` and `RateLimitError` is raised. -/

def RATE_LIMIT_PER_MINUTE : Nat := 50

def RATE_LIMIT_WINDOW_MS : Int := 60000

/-- `zremrangebyscore key 0 window_start`: drop members with score in
`[0, nowMs - 60000]`. -/
def rlTrim (s : Finset Int) (nowMs : Int) : Finset Int :=
  s.filter (fun x => ¬(0 ≤ x ∧ x ≤ nowMs - RATE_LIMIT_WINDOW_MS))

/-- One `_rate_limit_check` against a provider's window: returns whether the
check passed, the new window contents, and the `zcard` count (used in the
error message). On rejection `zrem` removes the member keyed by `nowMs`. -/
def rlCheckFull (s : Finset Int) (nowMs : Int) : Bool × Finset Int × Nat :=
  let s2 := insert nowMs (rlTrim s nowMs)
  let count := s2.card
  if RATE_LIMIT_PER_MINUTE < count then (false, s2.erase nowMs, count)
  else (true, s2, count)

/-- The pass/fail verdict and resulting window of one rate-limit check. -/
def rlCheck (s : Finset Int) (nowMs : Int) : Bool × Finset Int :=
  ((rlCheckFull s nowMs).1, (rlCheckFull s nowMs).2.1)

/-- A sequence of rate-limit checks at the given millisecond timestamps,
returning the final window and the list of verdicts. -/
def rlRun (s : Finset Int) : List Int → Finset Int × List Bool
  | [] => (s, [])
  | t :: ts =>
    let r := rlCheck s t
    let rest := rlRun r.2 ts
    (rest.1, r.1 :: rest.2)

/-! ## Historical resolver (`services/historical_provider.py`)

`get_historical_candles` is embedded as a pure function over:
* an `Env` of oracles — the two provider clients (`finnhub_client.py`'s
  `get_stock_candles` behind `_fetch_finnhub_candles`, and
  `_fetch_yahoo_candles`) and the missing `ta_calculator` (see
  `calculate_ta_indicators` below);
* a `Store` — the Redis-backed state (cache entries and the two providers'
  rate-limit windows) plus whether the Redis client is initialized;
* the current unix time in seconds.

It returns the Python outcome (`Except` for raised exceptions), the new
store, and a trace of the externally observable effects in program order. -/

/-- Raised `ValueError`s, one constructor per `raise` site, carrying the
values interpolated into the message. -/
inductive VErr
  | rangeTooLarge30
  | rangeTooLargeYear
  | invalidProvider (p : String)
  | finnhubHTTP (status : Nat) (text : String) (symbolU : String)
  | fallbackCombined (status : Nat) (text : String) (e2 : String)
  | yahooError (symbolU : String) (e : String)
deriving DecidableEq, Repr

/-- A raised exception: `ValueError` or `utils.RateLimitError` are the two
exception classes the resolver can raise. -/
inductive PyErr
  | valueError (m : VErr)
  | rateLimited (m : String)
deriving DecidableEq, Repr

/-- Exception-class discriminator: is this a `RateLimitError`? -/
def PyErr.isRateLimited : PyErr → Bool
  | .rateLimited _ => true
  | .valueError _ => false

/-- Exception-class discriminator: is this a `ValueError`? -/
def PyErr.isValueError : PyErr → Bool
  | .valueError _ => true
  | .rateLimited _ => false

/-- The message of each `ValueError`, rendered as in the source f-strings. -/
def VErr.message : VErr → String
  | .rangeTooLarge30 =>
      "1-minute candles are only supported within the last 30 days " ++
      "due to Yahoo Finance limitations. Please request a shorter " ++
      "range or use a higher timeframe (5, 15, 60, or D)."
  | .rangeTooLargeYear =>
      "Finnhub does not support longer ranges than 1 year. " ++
      "Please request a shorter range."
  | .invalidProvider p => "Invalid provider: " ++ p
  | .finnhubHTTP status text symbolU =>
      "Finnhub HTTP " ++ toString status ++ " for " ++ symbolU ++ ": " ++ text
  | .fallbackCombined status text e2 =>
      "Finnhub HTTP error " ++ toString status ++ ": " ++ text ++
      "; Yahoo fallback also failed: " ++ e2
  | .yahooError symbolU e =>
      "Yahoo Finance error for " ++ symbolU ++ ": " ++ e

/-- Message of a raised exception (used when an exception is interpolated
into another message, as in the fallback's `f"...{e2}"`). -/
def PyErr.message : PyErr → String
  | .valueError m => m.message
  | .rateLimited m => m

/-- Result of `_fetch_finnhub_candles`: candles, or an `HTTPStatusError`
raised by `raise_for_status` with the response's status code and body. -/
inductive FinnResult
  | ok (cs : List Candle)
  | httpError (status : Nat) (text : String)

/-- Result of `_fetch_yahoo_candles`: candles (download errors inside
`_fetch_yahoo_candles_sync` are swallowed and yield `[]`), or any other
exception raised while fetching. -/
inductive YahooResult
  | ok (cs : List Candle)
  | exn (msg : String)

/-- External collaborators of the resolver. `taValue` abstracts the numeric
indicator computation of the missing `ta_calculator.py` (see
`calculate_ta_indicators`). -/
structure Env where
  finnhub : String → String → Int → Int → FinnResult
  yahoo : String → String → Int → Int → YahooResult
  taValue : String → Candle → Rat

/-- A cache key as built in `get_historical_candles`:
`(symbol_upper, resolution, from_ts, to_ts, provider_to_use,
tuple(sorted(indicators)))`. (`utils._cache_key` renders it as the string
`candle:...` by joining the components; the tuple itself is kept here.) -/
abbrev CacheKey := String × String × Int × Int × String × List String

/-- Redis-backed state shared by cache and rate limiter, plus whether the
Redis client is initialized (`redis_client is None` in the source).
Cache entries carry the stored candle list and the write time (seconds);
newer writes are prepended, so the first match wins, which matches Redis
`SET` overwrite semantics. The two rate-limit windows model the sorted sets
`rl:finnhub` and `rl:yahoo`. -/
structure Store where
  redisUp : Bool
  cache : List (CacheKey × List CandleWithTA × Int)
  rlFinnhub : Finset Int
  rlYahoo : Finset Int

/-- The rate-limit window of a provider (`rl:{provider}`; the resolver only
ever checks the providers `"finnhub"` and `"yahoo"`). -/
def Store.rlOf (st : Store) (p : String) : Finset Int :=
  if p = "finnhub" then st.rlFinnhub else st.rlYahoo

/-- Replace the rate-limit window of a provider. -/
def Store.setRl (st : Store) (p : String) (s : Finset Int) : Store :=
  if p = "finnhub" then { st with rlFinnhub := s } else { st with rlYahoo := s }

/-- Python string-insertion sort for `tuple(sorted(indicators))`. -/
def insertSorted (s : String) : List String → List String
  | [] => [s]
  | t :: ts => if strLe s t then s :: t :: ts else t :: insertSorted s ts

/-- `sorted(...)` on a list of strings. -/
def sortStrings : List String → List String
  | [] => []
  | t :: ts => insertSorted t (sortStrings ts)

/-- `utils._cache_get`: `None` when the Redis client is missing, the key is
absent, or the entry's 60-second TTL has lapsed; on a hit the stored JSON is
deserialized with `[Candle(**item) for item in data]`, which rebuilds plain
`Candle` objects — any extra keys from the stored `CandleWithTA` dumps are
ignored by pydantic, so the indicator data is dropped. -/
def cache_get (st : Store) (key : CacheKey) (nowSec : Int) :
    Option (List Candle) :=
  if st.redisUp then
    match st.cache.find? (fun e => decide (e.1 = key)) with
    | some (_, v, storedAt) =>
        if nowSec < storedAt + 60 then some (v.map (·.candle)) else none
    | none => none
  else none

/-- `utils._cache_set`: no-op without a Redis client; otherwise store the
dumped candle list under the key with a 60-second TTL (`ex=60`). -/
def cache_set (st : Store) (key : CacheKey) (v : List CandleWithTA)
    (nowSec : Int) : Store :=
  if st.redisUp then { st with cache := (key, v, nowSec) :: st.cache } else st

/-- `utils._rate_limit_check` as used by the resolver: raises
`RateLimitError` when the Redis client is missing or the window check
rejects; otherwise records the new window. -/
def rate_limit_check (st : Store) (p : String) (nowMs : Int) :
    Except PyErr Unit × Store :=
  if st.redisUp then
    let r := rlCheckFull (st.rlOf p) nowMs
    if r.1 then (Except.ok (), st.setRl p r.2.1)
    else
      (Except.error (PyErr.rateLimited
        ("Rate limit of " ++ toString RATE_LIMIT_PER_MINUTE ++
          " exceeded for provider " ++ p ++ ": " ++ toString r.2.2 ++
          " requests in the last minute.")), st.setRl p r.2.1)
  else
    (Except.error (PyErr.rateLimited
      "Redis client not initialized for rate limiting."), st)

def INTRADAY_RESOLUTION : List String := ["1", "5", "15", "30", "60"]

def ONE_DAY_SECONDS : Int := 60 * 60 * 24

def THIRTY_DAYS_SECONDS : Int := ONE_DAY_SECONDS * 30

def ONE_YEAR_SECONDS : Int := ONE_DAY_SECONDS * 365

/-- `provider_norm = (provider or "auto").lower()`. -/
def normalize_provider (provider : String) : String :=
  pyLower (if provider = "" then "auto" else provider)

/-- The consolidated resolution-"1" guardrails (lines 205-218): the 30-day
Yahoo/auto ceiling, `elif` the 1-year Finnhub/auto ceiling. -/
def guardrail_check (resolution provider_norm : String)
    (range_seconds : Int) : Option VErr :=
  if resolution = "1" then
    if (provider_norm = "auto" ∨ provider_norm = "yahoo") ∧
        range_seconds > THIRTY_DAYS_SECONDS then
      some VErr.rangeTooLarge30
    else if (provider_norm = "auto" ∨ provider_norm = "finnhub") ∧
        range_seconds > ONE_YEAR_SECONDS then
      some VErr.rangeTooLargeYear
    else none
  else none

/-- Provider selection (lines 224-232). -/
def select_provider (provider_norm resolution : String)
    (range_seconds : Int) : Except VErr String :=
  if provider_norm = "auto" then
    Except.ok
      (if resolution ∈ INTRADAY_RESOLUTION ∧ range_seconds ≤ ONE_YEAR_SECONDS
        then "finnhub" else "yahoo")
  else if provider_norm = "finnhub" ∨ provider_norm = "yahoo" then
    Except.ok provider_norm
  else Except.error (VErr.invalidProvider provider_norm)

/-- Observable effects of one resolver call, in program order. -/
inductive Effect
  | cacheGet
  | rlCheckEff (p : String)
  | fetchFinnhub
  | fetchYahoo
  | cacheSet
deriving DecidableEq, Repr

/-- `calculate_ta_indicators` — the module `ta_calculator.py` is not in the
repository snapshot. Modelled from the spec: "augment(candles,
indicator_names) -> CandleWithIndicators[], same length and ordering as
input", each candle gaining "a mapping of indicator-name → computed
value(s)"; the numeric computation itself is unspecified and abstracted as
`env.taValue`. -/
def calculate_ta_indicators (env : Env) (raw_candles : List Candle)
    (indicators : List String) : List CandleWithTA :=
  raw_candles.map (fun c => ⟨c, indicators.map (fun i => (i, env.taValue i c))⟩)

/-- The common processing block (lines 285-306): empty fetches return `[]`
without caching; otherwise augment (or wrap with an empty indicator set),
store under the fingerprint of the provider actually used, and return. -/
def finishProcessing (env : Env) (symbol_upper resolution : String)
    (from_ts to_ts : Int) (indicators : List String)
    (raw_candles : List Candle) (provider_used : String) (st : Store)
    (nowSec : Int) (tr : List Effect) :
    Except PyErr (List RetCandle) × Store × List Effect :=
  if raw_candles = [] then (Except.ok [], st, tr)
  else
    let ta_candles :=
      if indicators = [] then
        raw_candles.map (fun c => ⟨c, []⟩)
      else calculate_ta_indicators env raw_candles indicators
    let final_cache_key : CacheKey :=
      (symbol_upper, resolution, from_ts, to_ts, provider_used,
        sortStrings indicators)
    (Except.ok (ta_candles.map RetCandle.withTA),
      cache_set st final_cache_key ta_candles nowSec,
      tr ++ [Effect.cacheSet])

/-- `get_historical_candles` (lines 180-306). Control flow in source order:
normalize the provider preference, consolidated guardrails, provider
selection, cache lookup, rate-limit check, fetch with the auto-only Finnhub
→ Yahoo fallback, then the common processing block. The fallback branch is
translated exactly as written: after a successful Yahoo fallback fetch the
`except HTTPStatusError` block still reaches its final unconditional
`raise ValueError(f"Finnhub HTTP {status} ...")`, so the fallback result is
discarded (the preceding comment reserves that raise for the explicit-
provider case). The fallback fetch uses the original-case `symbol`, also as
written. -/
def get_historical_candles (env : Env) (st : Store) (nowSec : Int)
    (symbol resolution : String) (from_ts to_ts : Int) (provider : String)
    (indicators : List String) :
    Except PyErr (List RetCandle) × Store × List Effect :=
  let provider_norm := normalize_provider provider
  let range_seconds := imax (to_ts - from_ts) 0
  let symbol_upper := pyUpper symbol
  match guardrail_check resolution provider_norm range_seconds with
  | some e => (Except.error (PyErr.valueError e), st, [])
  | none =>
    match select_provider provider_norm resolution range_seconds with
    | Except.error e => (Except.error (PyErr.valueError e), st, [])
    | Except.ok provider_to_use =>
      let cache_key : CacheKey :=
        (symbol_upper, resolution, from_ts, to_ts, provider_to_use,
          sortStrings indicators)
      match cache_get st cache_key nowSec with
      | some cached =>
          (Except.ok (cached.map RetCandle.plain), st, [Effect.cacheGet])
      | none =>
        match rate_limit_check st provider_to_use (nowSec * 1000) with
        | (Except.error e, st1) =>
            (Except.error e, st1,
              [Effect.cacheGet, Effect.rlCheckEff provider_to_use])
        | (Except.ok _, st1) =>
          let tr1 := [Effect.cacheGet, Effect.rlCheckEff provider_to_use]
          if provider_to_use = "finnhub" then
            match env.finnhub symbol_upper resolution from_ts to_ts with
            | FinnResult.ok cs =>
                finishProcessing env symbol_upper resolution from_ts to_ts
                  indicators cs provider_to_use st1 nowSec
                  (tr1 ++ [Effect.fetchFinnhub])
            | FinnResult.httpError status text =>
              if provider_norm = "auto" then
                match rate_limit_check st1 "yahoo" (nowSec * 1000) with
                | (Except.error e2, st2) =>
                    (Except.error (PyErr.valueError
                      (VErr.fallbackCombined status text e2.message)), st2,
                      tr1 ++ [Effect.fetchFinnhub, Effect.rlCheckEff "yahoo"])
                | (Except.ok _, st2) =>
                  match env.yahoo symbol resolution from_ts to_ts with
                  | YahooResult.exn m =>
                      (Except.error (PyErr.valueError
                        (VErr.fallbackCombined status text m)), st2,
                        tr1 ++ [Effect.fetchFinnhub, Effect.rlCheckEff "yahoo",
                          Effect.fetchYahoo])
                  | YahooResult.ok _cs2 =>
                      -- fallback succeeded, but the except block falls
                      -- through to the unconditional raise (line 277)
                      (Except.error (PyErr.valueError
                        (VErr.finnhubHTTP status text symbol_upper)), st2,
                        tr1 ++ [Effect.fetchFinnhub, Effect.rlCheckEff "yahoo",
                          Effect.fetchYahoo])
              else
                (Except.error (PyErr.valueError
                  (VErr.finnhubHTTP status text symbol_upper)), st1,
                  tr1 ++ [Effect.fetchFinnhub])
          else if provider_to_use = "yahoo" then
            match env.yahoo symbol_upper resolution from_ts to_ts with
            | YahooResult.ok cs =>
                finishProcessing env symbol_upper resolution from_ts to_ts
                  indicators cs provider_to_use st1 nowSec
                  (tr1 ++ [Effect.fetchYahoo])
            | YahooResult.exn m =>
                (Except.error (PyErr.valueError
                  (VErr.yahooError symbol_upper m)), st1,
                  tr1 ++ [Effect.fetchYahoo])
          else
            -- unreachable for the providers select_provider yields;
            -- raw_candles stays [] and the function returns []
            (Except.ok [], st1, tr1)

/-! ## HTTP boundary (`routers/candleRoute.py`, `candles_history`) -/

/-- Outcome at the HTTP boundary: a response, an `HTTPException`, or an
exception that no handler in the route catches (FastAPI then returns a
generic 500 Internal Server Error). -/
inductive HTTPOutcome
  | ok (body : List RetCandle)
  | httpExc (status : Nat) (detail : String)
  | unhandled (exceptionClass : String)
deriving DecidableEq, Repr

/-- The `try/except` around the `get_historical_candles` call plus the
empty-result check (lines 123-141): `ValueError` becomes a 400 with the
message as detail, `HTTPStatusError` would become its upstream status (the
resolver never lets one escape: every `HTTPStatusError` is converted to a
`ValueError` or `RateLimitError` first), an empty result becomes a 404, and
any other exception — in particular `RateLimitError` — is caught by nothing
in the route. -/
def candles_history (r : Except PyErr (List RetCandle)) (symbol : String) :
    HTTPOutcome :=
  match r with
  | Except.ok cs =>
      if cs.isEmpty then
        HTTPOutcome.httpExc 404 ("No candles found for " ++ symbol)
      else HTTPOutcome.ok cs
  | Except.error (PyErr.valueError m) => HTTPOutcome.httpExc 400 m.message
  | Except.error (PyErr.rateLimited _) => HTTPOutcome.unhandled "RateLimitError"

/-! ## Live poller (`services/candle_poller.py`) -/

/-- The per-symbol state of `CandlePoller`: the subscription set
`_symbols_to_poll` and the `_last_ts` map. -/
structure PollerSt where
  symbols : Finset String
  lastTs : List (String × Int)
deriving DecidableEq

/-- `_last_ts.get(symbol)`. -/
def lastTsGet (m : List (String × Int)) (symbol : String) : Option Int :=
  (m.find? (fun kv => decide (kv.1 = symbol))).map (·.2)

/-- `_last_ts[symbol] = t`. -/
def lastTsSet (m : List (String × Int)) (symbol : String) (t : Int) :
    List (String × Int) :=
  (symbol, t) :: m.filter (fun kv => decide (kv.1 ≠ symbol))

/-- `CandlePoller.unsubscribe`: uppercase, discard from the set, pop the
`_last_ts` entry. -/
def CandlePoller.unsubscribe (st : PollerSt) (symbol : String) : PollerSt :=
  let s := pyUpper symbol
  { symbols := st.symbols.erase s,
    lastTs := st.lastTs.filter (fun kv => decide (kv.1 ≠ s)) }

/-- A message published to the `live_candles` channel. -/
structure PollMsg where
  type : String
  symbol : String
  resolution : String
  candle : Candle
  patterns : List String
deriving DecidableEq, Repr

/-- `CandlePoller._poll_symbol`, parameterized by the outcome of
`get_recent_candles` (`fetched`; `Except.error` for any exception) and the
classifier used on the latest/previous pair. The whole body sits in a
`try/except Exception` whose handler unsubscribes the symbol, so a failing
`classify_candle` call also lands there. `redisUp` is `redis_client`'s
presence: publishing is skipped without it but `_last_ts` is still updated. -/
def pollSymbolWith (classify : Candle → Option Candle → Except String (List String))
    (fetched : Except String (List Candle)) (redisUp : Bool) (st : PollerSt)
    (symbol : String) : PollerSt × List PollMsg :=
  match fetched with
  | Except.error _ => (CandlePoller.unsubscribe st symbol, [])
  | Except.ok candles =>
    match candles.getLast? with
    | none => (st, [])
    | some latest =>
      let previous :=
        if candles.length ≥ 2 then candles.get? (candles.length - 2) else none
      let isNew :=
        match lastTsGet st.lastTs symbol with
        | none => true
        | some lt => latest.t ≥ lt
      if isNew then
        match classify latest previous with
        | Except.error _ => (CandlePoller.unsubscribe st symbol, [])
        | Except.ok patterns =>
          let msgs :=
            if redisUp then
              [{ type := "candle", symbol := symbol, resolution := "1",
                 candle := latest, patterns := patterns }]
            else []
          ({ st with lastTs := lastTsSet st.lastTs symbol latest.t }, msgs)
      else (st, [])

/-- `CandlePoller._poll_symbol` with the classifier the source calls. -/
def pollSymbol (fetched : Except String (List Candle)) (redisUp : Bool)
    (st : PollerSt) (symbol : String) : PollerSt × List PollMsg :=
  pollSymbolWith classify_candle fetched redisUp st symbol

/-! ## Poller lifecycle (`candle_poller.py`, `_polling_loop` /
`subscribe` / `unsubscribe`)

The loop is modelled as a state machine over the subscription set and the
background-task flag. One `loopCheck` event is the `while
cls._symbols_to_poll` test at the top of `_polling_loop`; it runs only
after the previous cycle (fetches plus sleep) has completed, so
subscription changes made during a cycle are visible at the next check.
`symbolError` is the per-symbol `except` handler inside a cycle, which
unsubscribes the failing symbol and nothing else. -/

structure LoopSt where
  symbols : Finset String
  taskRunning : Bool
deriving DecidableEq

inductive PollerEvent
  | subscribe (s : String)
  | unsubscribe (s : String)
  | symbolError (s : String)
  | loopCheck
deriving DecidableEq, Repr

/-- One transition of the poller lifecycle. `subscribe` adds the uppercased
symbol and calls `start_polling` (which starts the task only when it is
absent or done, and is a no-op on a running task); `unsubscribe` and the
per-symbol error handler discard the symbol; `loopCheck` ends the loop
(`stop_polling`) exactly when it observes an empty set. -/
def pollerStep (st : LoopSt) (e : PollerEvent) : LoopSt :=
  match e with
  | PollerEvent.subscribe s =>
    let u := pyUpper s
    if u ∈ st.symbols then st
    else { symbols := insert u st.symbols, taskRunning := true }
  | PollerEvent.unsubscribe s => { st with symbols := st.symbols.erase (pyUpper s) }
  | PollerEvent.symbolError s => { st with symbols := st.symbols.erase (pyUpper s) }
  | PollerEvent.loopCheck =>
    if st.taskRunning ∧ st.symbols = ∅ then { st with taskRunning := false }
    else st

/-- The lifecycle invariant: a stopped loop implies an empty subscription
set (the loop only stops by observing emptiness, and `subscribe` restarts
it as it inserts). -/
def LoopInv (st : LoopSt) : Prop := st.taskRunning = false → st.symbols = ∅

/-! ## Live session bridge (`services/candle_stream.py`,
`stream_candles_to_websocket`) -/

/-- Observable actions of one live session. -/
inductive SEffect
  | pollerSubscribe (s : String)
  | sendErrorJson
  | closeWs (code : Nat)
  | pubsubSubscribe
  | forwardLoop
  | pubsubUnsubscribe
  | pubsubClose
  | pollerUnsubscribe (s : String)
deriving DecidableEq, Repr

/-- How the forwarding loop of a session ends. -/
inductive SessionEnd
  | disconnect
  | cancelled
  | loopError (e : String)
deriving DecidableEq, Repr

/-- `stream_candles_to_websocket` as its sequence of observable actions.
The poller subscription is registered first; when `redis_client is None`
the function sends a structured error, closes with code 1011 and returns
*before* the `try/finally` — so no cleanup runs on that path. Otherwise the
pubsub channel is opened, the forwarding loop runs until `ending`, an
abnormal loop error closes with 1011, and the `finally` block always
unsubscribes the pubsub connection and deregisters the poller
subscription. -/
def stream_candles_to_websocket (redisUp : Bool) (ending : SessionEnd)
    (symbol : String) : List SEffect :=
  let s := pyUpper symbol
  [SEffect.pollerSubscribe s] ++
    (if redisUp then
      [SEffect.pubsubSubscribe, SEffect.forwardLoop] ++
        (match ending with
        | SessionEnd.disconnect => []
        | SessionEnd.cancelled => []
        | SessionEnd.loopError _ => [SEffect.closeWs 1011]) ++
        [SEffect.pubsubUnsubscribe, SEffect.pubsubClose,
          SEffect.pollerUnsubscribe s]
    else [SEffect.sendErrorJson, SEffect.closeWs 1011])


/-- The fetch effect of a selected provider. -/
def fetchEffect (p : String) : Effect :=
  if p = "finnhub" then Effect.fetchFinnhub else Effect.fetchYahoo


/-- A store with a live Redis client and no prior cache or rate-limit
state. -/
def emptyStore : Store :=
  { redisUp := true, cache := [], rlFinnhub := ∅, rlYahoo := ∅ }

/-- Oracles for a down intraday provider: Finnhub raises HTTP 500 with body
"boom"; Yahoo succeeds with a single candle. -/
def envFinnhubDown : Env :=
  { finnhub := fun _ _ _ _ => FinnResult.httpError 500 "boom",
    yahoo := fun _ _ _ _ => YahooResult.ok [⟨60, 1, 2, 1, 2, 3⟩],
    taValue := fun _ _ => 7 }

/-- Oracles where both providers succeed with zero candles. -/
def envEmptyFetch : Env :=
  { finnhub := fun _ _ _ _ => FinnResult.ok [],
    yahoo := fun _ _ _ _ => YahooResult.ok [],
    taValue := fun _ _ => 7 }

/-- Oracles where both providers succeed with one candle. -/
def envOneCandle : Env :=
  { finnhub := fun _ _ _ _ => FinnResult.ok [⟨60, 1, 2, 1, 2, 3⟩],
    yahoo := fun _ _ _ _ => YahooResult.ok [⟨60, 1, 2, 1, 2, 3⟩],
    taValue := fun _ _ => 7 }

/-- A store whose Finnhub rate-limit window already holds 50 request
timestamps (milliseconds 1..50). -/
def fullStore : Store :=
  { redisUp := true, cache := [],
    rlFinnhub := (((List.range 50).map (fun n => (n : Int) + 1))).toFinset,
    rlYahoo := ∅ }

/-- Oracles where both providers fail: Finnhub raises HTTP 500 "boom",
Yahoo raises "yahoo down". -/
def envBothDown : Env :=
  { finnhub := fun _ _ _ _ => FinnResult.httpError 500 "boom",
    yahoo := fun _ _ _ _ => YahooResult.exn "yahoo down",
    taValue := fun _ _ => 7 }

/-! # Theorems -/

/-! ## Rate limiter lemmas -/

theorem rlTrim_eq_self (s : Finset Int) (nowMs : Int)
    (h : ∀ x ∈ s, nowMs - RATE_LIMIT_WINDOW_MS < x) : rlTrim s nowMs = s := by
  unfold rlTrim
  apply Finset.filter_eq_self.mpr
  intro x hx
  have := h x hx
  omega

theorem rlCheck_pass (s : Finset Int) (nowMs : Int)
    (hwin : ∀ x ∈ s, nowMs - RATE_LIMIT_WINDOW_MS < x)
    (hfresh : nowMs ∉ s)
    (hcard : s.card + 1 ≤ RATE_LIMIT_PER_MINUTE) :
    rlCheck s nowMs = (true, insert nowMs s) := by
  unfold rlCheck rlCheckFull
  rw [rlTrim_eq_self s nowMs hwin]
  rw [if_neg]
  · rw [Finset.card_insert_of_not_mem hfresh]
    omega

theorem rlRun_all_pass (ts : List Int) (acc : Finset Int)
    (hfresh : ∀ t ∈ ts, t ∉ acc)
    (hwin : ∀ t ∈ ts, ∀ x ∈ acc, t - RATE_LIMIT_WINDOW_MS < x)
    (hsorted : ts.Sorted (· < ·))
    (hspan : ∀ a ∈ ts, ∀ b ∈ ts, a - RATE_LIMIT_WINDOW_MS < b)
    (hcard : acc.card + ts.length ≤ RATE_LIMIT_PER_MINUTE) :
    rlRun acc ts = (acc ∪ ts.toFinset, List.replicate ts.length true) := by
  induction ts generalizing acc with
  | nil => simp [rlRun]
  | cons t ts ih =>
    rw [List.sorted_cons] at hsorted
    have hpass : rlCheck acc t = (true, insert t acc) := by
      apply rlCheck_pass
      · exact fun x hx => hwin t (by simp) x hx
      · exact hfresh t (by simp)
      · have := hcard
        simp only [List.length_cons] at this
        omega
    have hrec :
        rlRun (insert t acc) ts =
          (insert t acc ∪ ts.toFinset, List.replicate ts.length true) := by
      apply ih
      · intro u hu
        simp only [Finset.mem_insert]
        push_neg
        constructor
        · exact fun he => absurd (hsorted.1 u hu) (by rw [he]; omega)
        · exact hfresh u (by simp [hu])
      · intro u hu x hx
        rcases Finset.mem_insert.mp hx with hx | hx
        · subst hx
          exact hspan u (by simp [hu]) x (by simp)
        · exact hwin u (by simp [hu]) x hx
      · exact hsorted.2
      · exact fun a ha b hb => hspan a (by simp [ha]) b (by simp [hb])
      · rw [Finset.card_insert_of_not_mem (hfresh t (by simp))]
        simp only [List.length_cons] at hcard
        omega
    show (let r := rlCheck acc t;
      let rest := rlRun r.2 ts; (rest.1, r.1 :: rest.2)) = _
    rw [hpass]
    simp only [hrec]
    refine Prod.ext ?_ ?_
    · show insert t acc ∪ ts.toFinset = acc ∪ (t :: ts).toFinset
      rw [List.toFinset_cons, Finset.insert_union, Finset.union_insert]
    · show true :: List.replicate ts.length true =
        List.replicate (t :: ts).length true
      simp [List.replicate_succ]

/-- C3 (amended): for every provider window, starting empty, 50 checks at
pairwise-distinct, increasing millisecond timestamps within one 60-second
trailing window all pass; a 51st check at a fresh timestamp in the same
window is rejected, and the rejection removes exactly the timestamp it just
added (the window is unchanged); a later retry succeeds as soon as one prior
timestamp has aged out of the window. The distinctness proviso is forced by
the counterexample below. -/
theorem rate_limiter_window_behavior (t50 : List Int) (t51 : Int)
    (hlen : t50.length = RATE_LIMIT_PER_MINUTE)
    (hsorted : (t50 ++ [t51]).Sorted (· < ·))
    (hspan : ∀ a ∈ t50 ++ [t51], ∀ b ∈ t50 ++ [t51],
      a - RATE_LIMIT_WINDOW_MS < b) :
    (rlRun ∅ t50).2 = List.replicate RATE_LIMIT_PER_MINUTE true ∧
    (rlRun ∅ t50).1 = t50.toFinset ∧
    (rlCheck t50.toFinset t51).1 = false ∧
    (rlCheck t50.toFinset t51).2 = t50.toFinset ∧
    (∀ tR x, x ∈ t50 → 0 ≤ x → x + RATE_LIMIT_WINDOW_MS ≤ tR →
      (rlCheck t50.toFinset tR).1 = true) := by
  obtain ⟨hs50, -, hlt51⟩ := List.pairwise_append.mp hsorted
  have hnodup : t50.Nodup := hs50.nodup
  have hcard50 : t50.toFinset.card = RATE_LIMIT_PER_MINUTE := by
    rw [List.toFinset_card_of_nodup hnodup, hlen]
  have hrun : rlRun ∅ t50 = (∅ ∪ t50.toFinset,
      List.replicate t50.length true) := by
    apply rlRun_all_pass
    · intro t _ h
      exact absurd h (Finset.not_mem_empty t)
    · intro t _ x hx
      exact absurd hx (Finset.not_mem_empty x)
    · exact hs50
    · intro a ha b hb
      exact hspan a (by simp [ha]) b (by simp [hb])
    · simp [hlen]
  have h51notin : t51 ∉ t50.toFinset := by
    rw [List.mem_toFinset]
    intro h
    exact absurd (hlt51 t51 h t51 (by simp)) (lt_irrefl t51)
  have htrim51 : rlTrim t50.toFinset t51 = t50.toFinset := by
    apply rlTrim_eq_self
    intro x hx
    exact hspan t51 (by simp) x (by simp [List.mem_toFinset.mp hx])
  have hreject : rlCheck t50.toFinset t51 = (false, t50.toFinset) := by
    unfold rlCheck rlCheckFull
    rw [htrim51]
    rw [if_pos]
    · rw [Finset.erase_insert h51notin]
    · rw [Finset.card_insert_of_not_mem h51notin, hcard50]
      omega
  refine ⟨?_, ?_, ?_, ?_, ?_⟩
  · rw [hrun, hlen]
  · rw [hrun, Finset.empty_union]
  · rw [hreject]
  · rw [hreject]
  · intro tR x hx h0 hage
    have hxin : x ∈ t50.toFinset := List.mem_toFinset.mpr hx
    have hsub : rlTrim t50.toFinset tR ⊆ t50.toFinset.erase x := by
      intro y hy
      unfold rlTrim at hy
      rw [Finset.mem_filter] at hy
      rw [Finset.mem_erase]
      refine ⟨?_, hy.1⟩
      intro he
      apply hy.2
      rw [he]
      constructor
      · exact h0
      · omega
    have hc1 : (rlTrim t50.toFinset tR).card ≤ RATE_LIMIT_PER_MINUTE - 1 := by
      have h1 := Finset.card_le_card hsub
      rw [Finset.card_erase_of_mem hxin, hcard50] at h1
      exact h1
    have hc2 : (insert tR (rlTrim t50.toFinset tR)).card ≤
        RATE_LIMIT_PER_MINUTE := by
      have h2 := Finset.card_insert_le tR (rlTrim t50.toFinset tR)
      have h50 : (1 : Nat) ≤ RATE_LIMIT_PER_MINUTE := by
        unfold RATE_LIMIT_PER_MINUTE
        omega
      omega
    unfold rlCheck rlCheckFull
    rw [if_neg]
    omega

/-- C3 witness: 50 checks at milliseconds 1..50 pass, the 51st at
millisecond 51 is rejected, and a retry at millisecond 60002 (after the
first timestamp has aged out) passes. -/
theorem rate_limiter_window_behavior_witness :
    (rlRun ∅ ((List.range 50).map (fun n => (n : Int) + 1))).2 =
      List.replicate 50 true ∧
    (rlCheck ((List.range 50).map (fun n => (n : Int) + 1)).toFinset 51).1 =
      false ∧
    (rlCheck ((List.range 50).map (fun n => (n : Int) + 1)).toFinset
      60002).1 = true := by
  have h := rate_limiter_window_behavior
    ((List.range 50).map (fun n => (n : Int) + 1)) 51
    (by decide) (by decide) (by decide)
  exact ⟨h.1, h.2.2.1, h.2.2.2.2 60002 1 (by decide) (by decide) (by decide)⟩

/-- C3 counterexample: fifty checks at millisecond timestamps 1..50 all
pass, and the next check in the same window, issued in the same millisecond
as the fiftieth, also passes (51 successes): `zadd` on an existing member
does not grow the sorted set, so the claim's unconditional "the next check
within the same window is rejected" is false. -/
theorem rate_limiter_collision_counterexample :
    (rlRun ∅ (((List.range 50).map (fun n => (n : Int) + 1)) ++ [50])).2 =
      List.replicate 51 true := by decide

/-! ## Resolver lemmas -/

theorem finishProcessing_fst_ne_error (env : Env)
    (symbol_upper resolution : String) (from_ts to_ts : Int)
    (indicators : List String) (raw_candles : List Candle)
    (provider_used : String) (st : Store) (nowSec : Int) (tr : List Effect)
    (pe : PyErr) :
    (finishProcessing env symbol_upper resolution from_ts to_ts indicators
      raw_candles provider_used st nowSec tr).1 ≠ Except.error pe := by
  unfold finishProcessing
  split <;> simp

theorem rate_limit_check_error_kind (st : Store) (p : String) (nowMs : Int)
    (e : PyErr) (st' : Store)
    (h : rate_limit_check st p nowMs = (Except.error e, st')) :
    e.isRateLimited = true := by
  simp only [rate_limit_check] at h
  split at h
  · split at h
    · simp at h
    · rw [Prod.mk.injEq] at h
      obtain ⟨h1, -⟩ := h
      rw [Except.error.injEq] at h1
      rw [← h1]
      rfl
  · rw [Prod.mk.injEq] at h
    obtain ⟨h1, -⟩ := h
    rw [Except.error.injEq] at h1
    rw [← h1]
    rfl

theorem guardrail30_range (res pn : String) (range : Int)
    (h : guardrail_check res pn range = some VErr.rangeTooLarge30) :
    THIRTY_DAYS_SECONDS < range := by
  unfold guardrail_check at h
  split at h
  · split at h
    · rename_i hc
      exact hc.2
    · split at h <;> simp at h
  · simp at h

theorem select_provider_error_kind (pn res : String) (range : Int)
    (e : VErr) (h : select_provider pn res range = Except.error e) :
    e = VErr.invalidProvider pn := by
  unfold select_provider at h
  split at h
  · simp at h
  · split at h
    · simp at h
    · rw [Except.error.injEq] at h
      rw [h]

/-- After the guardrail block reports nothing, no later raise site can
produce the 30-day `RangeTooLarge` error. -/
theorem resolver_no_guardrail_ne30 (env : Env) (st : Store) (nowSec : Int)
    (symbol res : String) (from_ts to_ts : Int) (prov : String)
    (inds : List String)
    (hgc : guardrail_check res (normalize_provider prov)
      (imax (to_ts - from_ts) 0) = none) :
    (get_historical_candles env st nowSec symbol res from_ts to_ts prov
      inds).1 ≠ Except.error (PyErr.valueError VErr.rangeTooLarge30) := by
  simp only [get_historical_candles, hgc]
  split
  · rename_i e heq
    rw [select_provider_error_kind _ _ _ _ heq]
    simp
  · split
    · simp
    · split
      · rename_i e st1 hrl
        intro hcon
        simp only at hcon
        rw [Except.error.injEq] at hcon
        have hk := rate_limit_check_error_kind _ _ _ _ _ hrl
        rw [hcon] at hk
        simp [PyErr.isRateLimited] at hk
      · split
        · split
          · exact finishProcessing_fst_ne_error _ _ _ _ _ _ _ _ _ _ _ _
          · split
            · split
              · simp
              · split <;> simp
            · simp
        · split
          · split
            · exact finishProcessing_fst_ne_error _ _ _ _ _ _ _ _ _ _ _ _
            · simp
          · simp

/-- Any resolver call whose outcome is the 30-day `RangeTooLarge`
`ValueError` got it from the consolidated guardrail block. -/
theorem resolver_rangeTooLarge30_source (env : Env) (st : Store)
    (nowSec : Int) (symbol res : String) (from_ts to_ts : Int)
    (prov : String) (inds : List String)
    (h : (get_historical_candles env st nowSec symbol res from_ts to_ts prov
      inds).1 = Except.error (PyErr.valueError VErr.rangeTooLarge30)) :
    guardrail_check res (normalize_provider prov) (imax (to_ts - from_ts) 0)
      = some VErr.rangeTooLarge30 := by
  cases hgc : guardrail_check res (normalize_provider prov)
      (imax (to_ts - from_ts) 0) with
  | some e =>
    simp only [get_historical_candles, hgc] at h
    rw [Except.error.injEq, PyErr.valueError.injEq] at h
    rw [h]
  | none =>
    exact absurd h (resolver_no_guardrail_ne30 env st nowSec symbol res
      from_ts to_ts prov inds hgc)

/-- C2: with resolution "1" and preference "auto" or "yahoo", a range of
more than 30 days fails with the `ValueError` naming the 30-day ceiling,
leaving the store untouched and performing no cache lookup, rate-limit
check or fetch (empty effect trace); and with a range of at most 30 days
that guardrail never fires, whatever the providers and state do. -/
theorem minute_resolution_thirty_day_guardrail :
    (∀ (env : Env) (st : Store) (nowSec : Int) (symbol : String)
      (from_ts to_ts : Int) (provider : String) (indicators : List String),
      (provider = "auto" ∨ provider = "yahoo") →
      from_ts < to_ts →
      THIRTY_DAYS_SECONDS < to_ts - from_ts →
      get_historical_candles env st nowSec symbol "1" from_ts to_ts provider
        indicators =
        (Except.error (PyErr.valueError VErr.rangeTooLarge30), st, [])) ∧
    VErr.message VErr.rangeTooLarge30 =
      "1-minute candles are only supported within the last 30 days " ++
      "due to Yahoo Finance limitations. Please request a shorter " ++
      "range or use a higher timeframe (5, 15, 60, or D)." ∧
    (∀ (env : Env) (st : Store) (nowSec : Int) (symbol : String)
      (from_ts to_ts : Int) (provider : String) (indicators : List String),
      from_ts < to_ts →
      to_ts - from_ts ≤ THIRTY_DAYS_SECONDS →
      (get_historical_candles env st nowSec symbol "1" from_ts to_ts provider
        indicators).1 ≠
        Except.error (PyErr.valueError VErr.rangeTooLarge30)) := by
  refine ⟨?_, rfl, ?_⟩
  · intro env st nowSec symbol from_ts to_ts provider indicators hp hlt hgt
    have him : imax (to_ts - from_ts) 0 = to_ts - from_ts := by
      unfold imax
      rw [if_neg (by omega)]
    have hgc : guardrail_check "1" (normalize_provider provider)
        (imax (to_ts - from_ts) 0) = some VErr.rangeTooLarge30 := by
      rw [him]
      unfold guardrail_check
      rw [if_pos rfl, if_pos]
      rcases hp with rfl | rfl
      · exact ⟨Or.inl (by decide), hgt⟩
      · exact ⟨Or.inr (by decide), hgt⟩
    simp only [get_historical_candles, hgc]
  · intro env st nowSec symbol from_ts to_ts provider indicators hlt hle hcon
    have hsrc := resolver_rangeTooLarge30_source _ _ _ _ _ _ _ _ _ hcon
    have hr := guardrail30_range _ _ _ hsrc
    have him : imax (to_ts - from_ts) 0 = to_ts - from_ts := by
      unfold imax
      rw [if_neg (by omega)]
    rw [him] at hr
    omega

/-- C2 witness: a 30-days-plus-one-second request fails with the 30-day
guardrail error and an empty effect trace; shortening it by one second
avoids that error. -/
theorem minute_resolution_thirty_day_guardrail_witness :
    get_historical_candles envOneCandle emptyStore 0 "AAPL" "1" 0 2592001
      "auto" [] =
      (Except.error (PyErr.valueError VErr.rangeTooLarge30), emptyStore, []) ∧
    (get_historical_candles envOneCandle emptyStore 0 "AAPL" "1" 0 2592000
      "auto" []).1 ≠
      Except.error (PyErr.valueError VErr.rangeTooLarge30) := by
  have h := minute_resolution_thirty_day_guardrail
  exact ⟨h.1 envOneCandle emptyStore 0 "AAPL" 0 2592001 "auto" []
      (Or.inl rfl) (by decide) (by decide),
    h.2.2 envOneCandle emptyStore 0 "AAPL" 0 2592000 "auto" []
      (by decide) (by decide)⟩

theorem Store.setRl_cache (st : Store) (p : String) (s : Finset Int) :
    (st.setRl p s).cache = st.cache := by
  unfold Store.setRl
  split <;> rfl

theorem Store.setRl_redisUp (st : Store) (p : String) (s : Finset Int) :
    (st.setRl p s).redisUp = st.redisUp := by
  unfold Store.setRl
  split <;> rfl

theorem cache_get_congr (st st' : Store) (key : CacheKey) (t : Int)
    (hc : st'.cache = st.cache) (hr : st'.redisUp = st.redisUp) :
    cache_get st' key t = cache_get st key t := by
  unfold cache_get
  rw [hc, hr]

/-- A resolver call that misses the cache, passes the rate limit, and gets a
successful fetch from the selected provider runs the common processing block
on the fetched candles, with the rate-limit slot consumed and the effect
trace `cache get, rate-limit check, fetch`. -/
theorem resolver_fetch_ok_run (env : Env) (st : Store) (nowSec : Int)
    (symbol resolution : String) (from_ts to_ts : Int) (provider : String)
    (indicators : List String) (p : String) (cs : List Candle)
    (hguard : guardrail_check resolution (normalize_provider provider)
      (imax (to_ts - from_ts) 0) = none)
    (hsel : select_provider (normalize_provider provider) resolution
      (imax (to_ts - from_ts) 0) = Except.ok p)
    (hp : p = "finnhub" ∨ p = "yahoo")
    (hmiss : cache_get st (pyUpper symbol, resolution, from_ts, to_ts, p,
      sortStrings indicators) nowSec = none)
    (hredis : st.redisUp = true)
    (hrl : (rlCheckFull (st.rlOf p) (nowSec * 1000)).1 = true)
    (hfinn : p = "finnhub" → env.finnhub (pyUpper symbol) resolution from_ts
      to_ts = FinnResult.ok cs)
    (hyah : p = "yahoo" → env.yahoo (pyUpper symbol) resolution from_ts
      to_ts = YahooResult.ok cs) :
    get_historical_candles env st nowSec symbol resolution from_ts to_ts
      provider indicators =
      finishProcessing env (pyUpper symbol) resolution from_ts to_ts
        indicators cs p
        (st.setRl p (rlCheckFull (st.rlOf p) (nowSec * 1000)).2.1) nowSec
        [Effect.cacheGet, Effect.rlCheckEff p, fetchEffect p] := by
  have hrlc : rate_limit_check st p (nowSec * 1000) =
      (Except.ok (),
        st.setRl p (rlCheckFull (st.rlOf p) (nowSec * 1000)).2.1) := by
    simp only [rate_limit_check, hredis, if_true, hrl]
  simp only [get_historical_candles, hguard, hsel, hmiss, hrlc]
  rcases hp with rfl | rfl
  · rw [if_pos rfl, hfinn rfl]
    simp [fetchEffect]
  · rw [if_neg (by decide), if_pos rfl, hyah rfl]
    simp [fetchEffect]

/-- C10: when the selected provider's fetch succeeds with zero candles, the
call returns the empty list without raising and writes nothing to the cache
(the cache component of the store is unchanged, and the trace shows no cache
write); a second identical query afterwards misses the cache again and
performs the rate-limit check and the upstream fetch a second time. -/
theorem empty_fetch_returns_empty_without_caching (env : Env) (st : Store)
    (nowSec nowSec2 : Int) (symbol resolution : String) (from_ts to_ts : Int)
    (provider : String) (indicators : List String) (p : String)
    (hguard : guardrail_check resolution (normalize_provider provider)
      (imax (to_ts - from_ts) 0) = none)
    (hsel : select_provider (normalize_provider provider) resolution
      (imax (to_ts - from_ts) 0) = Except.ok p)
    (hp : p = "finnhub" ∨ p = "yahoo")
    (hmiss : ∀ tq : Int, cache_get st (pyUpper symbol, resolution, from_ts,
      to_ts, p, sortStrings indicators) tq = none)
    (hredis : st.redisUp = true)
    (hrl : (rlCheckFull (st.rlOf p) (nowSec * 1000)).1 = true)
    (hfinn : p = "finnhub" → env.finnhub (pyUpper symbol) resolution from_ts
      to_ts = FinnResult.ok [])
    (hyah : p = "yahoo" → env.yahoo (pyUpper symbol) resolution from_ts
      to_ts = YahooResult.ok [])
    (hrl2 : (rlCheckFull (((get_historical_candles env st nowSec symbol
      resolution from_ts to_ts provider indicators).2.1).rlOf p)
      (nowSec2 * 1000)).1 = true) :
    (get_historical_candles env st nowSec symbol resolution from_ts to_ts
      provider indicators).1 = Except.ok [] ∧
    (get_historical_candles env st nowSec symbol resolution from_ts to_ts
      provider indicators).2.1.cache = st.cache ∧
    (get_historical_candles env st nowSec symbol resolution from_ts to_ts
      provider indicators).2.2 =
      [Effect.cacheGet, Effect.rlCheckEff p, fetchEffect p] ∧
    (get_historical_candles env
      (get_historical_candles env st nowSec symbol resolution from_ts to_ts
        provider indicators).2.1
      nowSec2 symbol resolution from_ts to_ts provider indicators).2.2 =
      [Effect.cacheGet, Effect.rlCheckEff p, fetchEffect p] := by
  have h1 := resolver_fetch_ok_run env st nowSec symbol resolution from_ts
    to_ts provider indicators p [] hguard hsel hp (hmiss nowSec) hredis hrl
    hfinn hyah
  rw [h1] at hrl2 ⊢
  unfold finishProcessing at hrl2 ⊢
  rw [if_pos rfl] at hrl2 ⊢
  have hc := Store.setRl_cache st p
    (rlCheckFull (st.rlOf p) (nowSec * 1000)).2.1
  have hr := Store.setRl_redisUp st p
    (rlCheckFull (st.rlOf p) (nowSec * 1000)).2.1
  refine ⟨rfl, hc, rfl, ?_⟩
  have hmiss2 : cache_get
      (st.setRl p (rlCheckFull (st.rlOf p) (nowSec * 1000)).2.1)
      (pyUpper symbol, resolution, from_ts, to_ts, p,
        sortStrings indicators) nowSec2 = none := by
    rw [cache_get_congr st
      (st.setRl p (rlCheckFull (st.rlOf p) (nowSec * 1000)).2.1) _ _ hc hr]
    exact hmiss nowSec2
  have h2 := resolver_fetch_ok_run env
    (st.setRl p (rlCheckFull (st.rlOf p) (nowSec * 1000)).2.1) nowSec2
    symbol resolution from_ts to_ts provider indicators p [] hguard hsel hp
    hmiss2 (by rw [hr]; exact hredis) hrl2 hfinn hyah
  rw [h2]
  unfold finishProcessing
  rw [if_pos rfl]

/-- C10 witness: both providers return zero candles; the first call returns
`[]` leaving the cache untouched, and the second identical call's trace
again shows the rate-limit check and the fetch. -/
theorem empty_fetch_returns_empty_without_caching_witness :
    (get_historical_candles envEmptyFetch emptyStore 0 "AAPL" "5" 0 3600
      "finnhub" []).1 = Except.ok [] ∧
    (get_historical_candles envEmptyFetch emptyStore 0 "AAPL" "5" 0 3600
      "finnhub" []).2.1.cache = emptyStore.cache ∧
    (get_historical_candles envEmptyFetch emptyStore 0 "AAPL" "5" 0 3600
      "finnhub" []).2.2 =
      [Effect.cacheGet, Effect.rlCheckEff "finnhub", fetchEffect "finnhub"] ∧
    (get_historical_candles envEmptyFetch
      (get_historical_candles envEmptyFetch emptyStore 0 "AAPL" "5" 0 3600
        "finnhub" []).2.1
      0 "AAPL" "5" 0 3600 "finnhub" []).2.2 =
      [Effect.cacheGet, Effect.rlCheckEff "finnhub", fetchEffect "finnhub"] := by
  exact empty_fetch_returns_empty_without_caching envEmptyFetch emptyStore
    0 0 "AAPL" "5" 0 3600 "finnhub" [] "finnhub"
    (by decide) (by decide) (Or.inl rfl) (fun _ => rfl) rfl (by decide)
    (fun _ => rfl) (fun _ => rfl) (by decide)

/-- A resolver call whose cache lookup hits returns the deserialized plain
candles immediately: no rate-limit check, no fetch, store unchanged. -/
theorem resolver_cache_hit (env : Env) (st : Store) (nowSec : Int)
    (symbol resolution : String) (from_ts to_ts : Int) (provider : String)
    (indicators : List String) (p : String) (cached : List Candle)
    (hguard : guardrail_check resolution (normalize_provider provider)
      (imax (to_ts - from_ts) 0) = none)
    (hsel : select_provider (normalize_provider provider) resolution
      (imax (to_ts - from_ts) 0) = Except.ok p)
    (hhit : cache_get st (pyUpper symbol, resolution, from_ts, to_ts, p,
      sortStrings indicators) nowSec = some cached) :
    get_historical_candles env st nowSec symbol resolution from_ts to_ts
      provider indicators =
      (Except.ok (cached.map RetCandle.plain), st, [Effect.cacheGet]) := by
  simp only [get_historical_candles, hguard, hsel, hhit]

/-- C5 (amended): for two consecutive identical queries (the symbol may
change case) within the 60-second TTL whose first call's fetch succeeds with
at least one candle, exactly one upstream fetch happens in total; the second
call hits the cache, performs no rate-limit check and no fetch (its trace is
only the cache lookup), leaves the store unchanged, and returns plain
`Candle` objects carrying exactly the candle fields of the first call's
results — the `CandleWithTA` wrapper and any indicator values are not
reconstructed by `_cache_get`'s deserialization. -/
theorem cache_idempotence_amended (env : Env) (st : Store)
    (nowSec nowSec2 : Int) (symbol symbol2 resolution : String)
    (from_ts to_ts : Int) (provider : String) (indicators : List String)
    (p : String) (cs : List Candle)
    (hsym : pyUpper symbol2 = pyUpper symbol)
    (hguard : guardrail_check resolution (normalize_provider provider)
      (imax (to_ts - from_ts) 0) = none)
    (hsel : select_provider (normalize_provider provider) resolution
      (imax (to_ts - from_ts) 0) = Except.ok p)
    (hp : p = "finnhub" ∨ p = "yahoo")
    (hmiss : ∀ tq : Int, cache_get st (pyUpper symbol, resolution, from_ts,
      to_ts, p, sortStrings indicators) tq = none)
    (hredis : st.redisUp = true)
    (hrl : (rlCheckFull (st.rlOf p) (nowSec * 1000)).1 = true)
    (hfinn : p = "finnhub" → env.finnhub (pyUpper symbol) resolution from_ts
      to_ts = FinnResult.ok cs)
    (hyah : p = "yahoo" → env.yahoo (pyUpper symbol) resolution from_ts
      to_ts = YahooResult.ok cs)
    (hne : cs ≠ [])
    (httl : nowSec2 < nowSec + 60) :
    ∃ ta : List CandleWithTA,
      (get_historical_candles env st nowSec symbol resolution from_ts to_ts
        provider indicators).1 = Except.ok (ta.map RetCandle.withTA) ∧
      ta.map (·.candle) = cs ∧
      (get_historical_candles env
        (get_historical_candles env st nowSec symbol resolution from_ts
          to_ts provider indicators).2.1
        nowSec2 symbol2 resolution from_ts to_ts provider indicators) =
        (Except.ok (cs.map RetCandle.plain),
          (get_historical_candles env st nowSec symbol resolution from_ts
            to_ts provider indicators).2.1,
          [Effect.cacheGet]) ∧
      ((get_historical_candles env st nowSec symbol resolution from_ts to_ts
          provider indicators).2.2 ++ [Effect.cacheGet]).count (fetchEffect p)
        = 1 := by
  have h1 := resolver_fetch_ok_run env st nowSec symbol resolution from_ts
    to_ts provider indicators p cs hguard hsel hp (hmiss nowSec) hredis hrl
    hfinn hyah
  set st1 := st.setRl p (rlCheckFull (st.rlOf p) (nowSec * 1000)).2.1
    with hst1
  have hru1 : st1.redisUp = true :=
    (Store.setRl_redisUp st p _).trans hredis
  set ta : List CandleWithTA :=
    (if indicators = [] then
      cs.map (fun c => ({ candle := c, ta := [] } : CandleWithTA))
    else calculate_ta_indicators env cs indicators) with hta
  refine ⟨ta, ?_⟩
  have hfin : finishProcessing env (pyUpper symbol) resolution from_ts to_ts
      indicators cs p st1 nowSec
      [Effect.cacheGet, Effect.rlCheckEff p, fetchEffect p] =
      (Except.ok (ta.map RetCandle.withTA),
        cache_set st1 (pyUpper symbol, resolution, from_ts, to_ts, p,
          sortStrings indicators) ta nowSec,
        [Effect.cacheGet, Effect.rlCheckEff p, fetchEffect p,
          Effect.cacheSet]) := by
    unfold finishProcessing
    rw [if_neg hne, hta]
    rfl
  have hst2 : cache_set st1 (pyUpper symbol, resolution, from_ts, to_ts, p,
      sortStrings indicators) ta nowSec =
      { st1 with cache := ((pyUpper symbol, resolution, from_ts, to_ts, p,
          sortStrings indicators), ta, nowSec) :: st1.cache } := by
    unfold cache_set
    rw [if_pos hru1]
  have hproj : ta.map (·.candle) = cs := by
    rw [hta]
    split
    · rw [List.map_map]
      exact List.map_id cs
    · unfold calculate_ta_indicators
      rw [List.map_map]
      exact List.map_id cs
  have hhit : cache_get
      { st1 with cache := ((pyUpper symbol, resolution, from_ts, to_ts, p,
          sortStrings indicators), ta, nowSec) :: st1.cache }
      (pyUpper symbol2, resolution, from_ts, to_ts, p,
        sortStrings indicators) nowSec2 = some (ta.map (·.candle)) := by
    rw [hsym]
    unfold cache_get
    rw [if_pos (show st1.redisUp = true from hru1)]
    rw [List.find?_cons_of_pos _ (by simp)]
    show (if nowSec2 < nowSec + 60 then some (ta.map (·.candle)) else none)
      = some (ta.map (·.candle))
    rw [if_pos httl]
  have h2 := resolver_cache_hit env
    { st1 with cache := ((pyUpper symbol, resolution, from_ts, to_ts, p,
        sortStrings indicators), ta, nowSec) :: st1.cache }
    nowSec2 symbol2 resolution from_ts to_ts provider indicators p
    (ta.map (·.candle)) hguard hsel hhit
  rw [h1, hfin, hst2]
  refine ⟨rfl, hproj, ?_, ?_⟩
  · rw [h2, hproj]
  · rcases hp with rfl | rfl <;>
    · show List.count (fetchEffect _)
        ([Effect.cacheGet, Effect.rlCheckEff _, fetchEffect _,
          Effect.cacheSet] ++ [Effect.cacheGet]) = 1
      decide

/-- C5 witness: a lower-case then upper-case identical query pair, ten
seconds apart, with indicator "sma" and a one-candle fetch: the second call
is a pure cache hit whose results are the plain candle parts. -/
theorem cache_idempotence_amended_witness :
    ∃ ta : List CandleWithTA,
      (get_historical_candles envOneCandle emptyStore 0 "aapl" "5" 0 3600
        "finnhub" ["sma"]).1 = Except.ok (ta.map RetCandle.withTA) ∧
      ta.map (·.candle) = [⟨60, 1, 2, 1, 2, 3⟩] ∧
      (get_historical_candles envOneCandle
        (get_historical_candles envOneCandle emptyStore 0 "aapl" "5" 0 3600
          "finnhub" ["sma"]).2.1
        10 "AAPL" "5" 0 3600 "finnhub" ["sma"]) =
        (Except.ok ([⟨60, 1, 2, 1, 2, 3⟩].map RetCandle.plain),
          (get_historical_candles envOneCandle emptyStore 0 "aapl" "5" 0
            3600 "finnhub" ["sma"]).2.1,
          [Effect.cacheGet]) ∧
      ((get_historical_candles envOneCandle emptyStore 0 "aapl" "5" 0 3600
          "finnhub" ["sma"]).2.2 ++ [Effect.cacheGet]).count
        (fetchEffect "finnhub") = 1 := by
  exact cache_idempotence_amended envOneCandle emptyStore 0 10 "aapl" "AAPL"
    "5" 0 3600 "finnhub" ["sma"] "finnhub" [⟨60, 1, 2, 1, 2, 3⟩]
    (by decide) (by decide) (by decide) (Or.inl rfl) (fun _ => rfl) rfl
    (by decide) (fun _ => rfl) (fun _ => rfl) (by decide) (by decide)

/-- C5 counterexample: when the first of two identical queries fetches zero
candles, nothing is cached, so the second call rate-limit-checks and fetches
again — two upstream fetches in total and a non-empty second-call effect
trace beyond the cache lookup, contradicting the claim's "at most one
upstream fetch ... the second call hits the cache, performs no rate-limit
check and no fetch". -/
theorem cache_idempotence_counterexample :
    Effect.fetchFinnhub ∈ (get_historical_candles envEmptyFetch
      (get_historical_candles envEmptyFetch emptyStore 0 "AAPL" "5" 0 3600
        "finnhub" []).2.1
      0 "AAPL" "5" 0 3600 "finnhub" []).2.2 ∧
    Effect.rlCheckEff "finnhub" ∈ (get_historical_candles envEmptyFetch
      (get_historical_candles envEmptyFetch emptyStore 0 "AAPL" "5" 0 3600
        "finnhub" []).2.1
      0 "AAPL" "5" 0 3600 "finnhub" []).2.2 ∧
    (get_historical_candles envEmptyFetch emptyStore 0 "AAPL" "5" 0 3600
        "finnhub" []).2.2.count Effect.fetchFinnhub +
      (get_historical_candles envEmptyFetch
        (get_historical_candles envEmptyFetch emptyStore 0 "AAPL" "5" 0 3600
          "finnhub" []).2.1
        0 "AAPL" "5" 0 3600 "finnhub" []).2.2.count Effect.fetchFinnhub
      = 2 := by
  decide

/-- C1 evaluation at the failing input (auto preference, Finnhub HTTP 500,
Yahoo fallback succeeds with one candle): exactly one fallback fetch is
attempted, after Yahoo's own rate-limit check, yet the call still raises
the Finnhub `ValueError` — the fallback result is discarded because the
`except` block falls through to its final unconditional raise. When both
fail, one combined `ValueError` carries both causes; with explicit
preference "finnhub" no fallback is attempted and the upstream failure
surfaces directly. -/
theorem auto_fallback_success_still_raises :
    (get_historical_candles envFinnhubDown emptyStore 0 "AAPL" "5" 0 3600
      "auto" []).1 =
      Except.error (PyErr.valueError (VErr.finnhubHTTP 500 "boom" "AAPL")) ∧
    (get_historical_candles envFinnhubDown emptyStore 0 "AAPL" "5" 0 3600
      "auto" []).2.2 =
      [Effect.cacheGet, Effect.rlCheckEff "finnhub", Effect.fetchFinnhub,
        Effect.rlCheckEff "yahoo", Effect.fetchYahoo] ∧
    (get_historical_candles envBothDown emptyStore 0 "AAPL" "5" 0 3600
      "auto" []).1 =
      Except.error (PyErr.valueError
        (VErr.fallbackCombined 500 "boom" "yahoo down")) ∧
    (get_historical_candles envFinnhubDown emptyStore 0 "AAPL" "5" 0 3600
      "finnhub" []).1 =
      Except.error (PyErr.valueError (VErr.finnhubHTTP 500 "boom" "AAPL")) ∧
    (get_historical_candles envFinnhubDown emptyStore 0 "AAPL" "5" 0 3600
      "finnhub" []).2.2 =
      [Effect.cacheGet, Effect.rlCheckEff "finnhub", Effect.fetchFinnhub] := by
  decide

/-- C4 evaluation at the failing input: a poll that fetches one candle for a
symbol with unset `last_ts` (and likewise with an older stored `last_ts`)
should, per the claim, publish and update `last_ts`; instead
`classify_candle` raises `TypeError`, the per-symbol `except` handler
unsubscribes the symbol, nothing is published and `last_ts` is dropped. -/
theorem poll_symbol_new_candle_never_publishes :
    pollSymbol (Except.ok [⟨60, 1, 2, 1, 2, 3⟩]) true
      ⟨{"AAPL"}, []⟩ "AAPL" = (⟨∅, []⟩, []) ∧
    pollSymbol (Except.ok [⟨60, 1, 2, 1, 2, 3⟩]) true
      ⟨{"AAPL"}, [("AAPL", 50)]⟩ "AAPL" = (⟨∅, []⟩, []) ∧
    (classify_candle ⟨60, 1, 2, 1, 2, 3⟩ none).isOk = false := by
  decide

/-- C6 evaluation: a rate-limited historical request raises the distinct
`RateLimitError` (not the `ValueError` class used for validation and
guardrail failures), but the route's handler catches only `ValueError` and
`HTTPStatusError`, so the condition escapes unhandled — a generic server
error, not a 429-equivalent retryable outcome. -/
theorem rate_limited_distinct_but_route_unhandled :
    (get_historical_candles envEmptyFetch fullStore 0 "AAPL" "5" 0 3600
      "finnhub" []).1 =
      Except.error (PyErr.rateLimited ("Rate limit of 50 exceeded for " ++
        "provider finnhub: 51 requests in the last minute.")) ∧
    (PyErr.rateLimited ("Rate limit of 50 exceeded for " ++
      "provider finnhub: 51 requests in the last minute.")).isValueError
      = false ∧
    candles_history
      (get_historical_candles envEmptyFetch fullStore 0 "AAPL" "5" 0 3600
        "finnhub" []).1 "AAPL" =
      HTTPOutcome.unhandled "RateLimitError" := by
  decide

/-- C7 counterexample: with the broadcast channel unavailable at session
start, the session registers the poller subscription, sends the structured
error and closes — but returns without ever deregistering the subscription,
contradicting the claim's "on every exit path ... the poller's unsubscribe
runs". -/
theorem stream_cleanup_counterexample :
    stream_candles_to_websocket false SessionEnd.disconnect "aapl" =
      [SEffect.pollerSubscribe "AAPL", SEffect.sendErrorJson,
        SEffect.closeWs 1011] ∧
    SEffect.pollerUnsubscribe "AAPL" ∉
      stream_candles_to_websocket false SessionEnd.disconnect "aapl" := by
  decide

/-- C7 (amended): on every exit path of the forwarding loop — normal client
disconnect, cancellation, or a loop error — the poller unsubscribe runs, and
it is the session's final action; but on the channel-unavailable early exit
the subscription registered at open is never deregistered. -/
theorem stream_cleanup_amended (ending : SessionEnd) (symbol : String) :
    SEffect.pollerUnsubscribe (pyUpper symbol) ∈
      stream_candles_to_websocket true ending symbol ∧
    (stream_candles_to_websocket true ending symbol).getLast? =
      some (SEffect.pollerUnsubscribe (pyUpper symbol)) ∧
    (stream_candles_to_websocket false ending symbol).head? =
      some (SEffect.pollerSubscribe (pyUpper symbol)) ∧
    SEffect.pollerUnsubscribe (pyUpper symbol) ∉
      stream_candles_to_websocket false ending symbol := by
  cases ending <;> simp [stream_candles_to_websocket]

/-- C8 counterexample: on the claim's doji input the source
`classify_candle` does not return a pattern list at all — its first line
`patterns = List[str] = []` raises `TypeError` — so the claimed
`["doji"]` result is false. -/
theorem classify_candle_counterexample :
    (classify_candle ⟨0, 10, 10001 / 1000, 9999 / 1000, 10, 0⟩ none).isOk
      = false := by
  decide

/-- C8 (amended): `classify_candle` raises `TypeError` on every call (both
claimed inputs produce the error, not a list); under the evident intended
initialization (`classify_candle_intended`) the doji input yields exactly
`["doji"]`, while the claimed engulfing input yields `[]` — the current
body (5) does not exceed the previous body (5) by more than 10%, and the
bullish-engulfing direction test (current green over previous red) fails
for o=10,c=5 following o=5,c=10 — so no `bullish_engulfing` tag. -/
theorem classify_candle_amended :
    classify_candle ⟨0, 10, 10001 / 1000, 9999 / 1000, 10, 0⟩ none =
      Except.error "TypeError: item assignment on typing.List" ∧
    classify_candle ⟨1, 10, 11, 4, 5, 0⟩ (some ⟨0, 5, 10, 5, 10, 0⟩) =
      Except.error "TypeError: item assignment on typing.List" ∧
    classify_candle_intended ⟨0, 10, 10001 / 1000, 9999 / 1000, 10, 0⟩ none
      = ["doji"] ∧
    classify_candle_intended ⟨1, 10, 11, 4, 5, 0⟩
      (some ⟨0, 5, 10, 5, 10, 0⟩) = [] := by
  refine ⟨rfl, rfl, ?_, ?_⟩ <;>
    norm_num [classify_candle_intended, rmax, rmin, rabs]

/-- C9: over the poller lifecycle state machine, (1) a running loop stops
only on a `loopCheck` that observes an empty subscription set; (2) a
per-symbol fetch error never stops the loop; (3) unsubscribing — even the
last symbol — never stops the loop mid-cycle (it stops only at the next
check); (4) a subscribe issued before the final check is not lost: the
check keeps the loop running with the symbol subscribed; (5) under the
lifecycle invariant (stopped implies empty), a subscribe always leaves the
loop running — in particular it restarts a stopped loop; the invariant
holds initially and is preserved by every event. -/
theorem poller_lifecycle :
    (∀ (st : LoopSt) (e : PollerEvent), st.taskRunning = true →
      (pollerStep st e).taskRunning = false →
      e = PollerEvent.loopCheck ∧ st.symbols = ∅) ∧
    (∀ (st : LoopSt) (s : String), st.taskRunning = true →
      (pollerStep st (PollerEvent.symbolError s)).taskRunning = true) ∧
    (∀ (st : LoopSt) (s : String), st.taskRunning = true →
      (pollerStep st (PollerEvent.unsubscribe s)).taskRunning = true) ∧
    (∀ (st : LoopSt) (s : String), st.taskRunning = true →
      (pollerStep (pollerStep st (PollerEvent.subscribe s))
        PollerEvent.loopCheck).taskRunning = true ∧
      pyUpper s ∈ (pollerStep (pollerStep st (PollerEvent.subscribe s))
        PollerEvent.loopCheck).symbols) ∧
    (∀ (st : LoopSt) (s : String), LoopInv st →
      (pollerStep st (PollerEvent.subscribe s)).taskRunning = true) ∧
    (∀ (st : LoopSt) (e : PollerEvent), LoopInv st →
      LoopInv (pollerStep st e)) ∧
    LoopInv ⟨∅, false⟩ := by
  refine ⟨?_, ?_, ?_, ?_, ?_, ?_, fun _ => rfl⟩
  · intro st e h1 h2
    cases e with
    | subscribe s =>
      exfalso
      simp only [pollerStep] at h2
      split at h2
      · rw [h1] at h2
        exact absurd h2 (by decide)
      · simp at h2
    | unsubscribe s =>
      exfalso
      simp only [pollerStep] at h2
      rw [h1] at h2
      exact absurd h2 (by decide)
    | symbolError s =>
      exfalso
      simp only [pollerStep] at h2
      rw [h1] at h2
      exact absurd h2 (by decide)
    | loopCheck =>
      simp only [pollerStep] at h2
      split at h2
      · rename_i hc
        exact ⟨rfl, hc.2⟩
      · rw [h1] at h2
        exact absurd h2 (by decide)
  · intro st s h1
    simp only [pollerStep]
    exact h1
  · intro st s h1
    simp only [pollerStep]
    exact h1
  · intro st s h1
    have hmem : pyUpper s ∈ (pollerStep st (PollerEvent.subscribe s)).symbols := by
      simp only [pollerStep]
      split
      · rename_i hin
        exact hin
      · exact Finset.mem_insert_self _ _
    have hrun : (pollerStep st (PollerEvent.subscribe s)).taskRunning = true := by
      simp only [pollerStep]
      split
      · exact h1
      · rfl
    have hne : (pollerStep st (PollerEvent.subscribe s)).symbols ≠ ∅ :=
      Finset.ne_empty_of_mem hmem
    constructor
    · simp only [pollerStep]
      rw [if_neg]
      · exact hrun
      · intro hc
        exact hne hc.2
    · simp only [pollerStep]
      rw [if_neg]
      · exact hmem
      · intro hc
        exact hne hc.2
  · intro st s hinv
    simp only [pollerStep]
    split
    · rename_i hin
      cases hb : st.taskRunning with
      | true => rfl
      | false =>
        exfalso
        rw [hinv hb] at hin
        exact absurd hin (Finset.not_mem_empty _)
    · rfl
  · intro st e hinv
    cases e with
    | subscribe s =>
      intro h2
      simp only [pollerStep] at h2 ⊢
      split at h2 <;> rename_i hsplit
      · rw [if_pos hsplit]
        exact hinv h2
      · simp at h2
    | unsubscribe s =>
      intro h2
      simp only [pollerStep] at h2 ⊢
      rw [hinv h2]
      exact Finset.erase_empty _
    | symbolError s =>
      intro h2
      simp only [pollerStep] at h2 ⊢
      rw [hinv h2]
      exact Finset.erase_empty _
    | loopCheck =>
      intro h2
      simp only [pollerStep] at h2 ⊢
      split at h2 <;> rename_i hc
      · rw [if_pos hc]
        exact hc.2
      · rw [if_neg hc]
        exact hinv h2

/-- C9 witness: a subscribe from the idle empty state starts the loop; a
subscribe racing the final cycle keeps the loop running through the next
check; a per-symbol fetch error leaves the loop running. -/
theorem poller_lifecycle_witness :
    (pollerStep ⟨∅, false⟩ (PollerEvent.subscribe "aapl")).taskRunning
      = true ∧
    (pollerStep (pollerStep ⟨{"AAPL"}, true⟩ (PollerEvent.subscribe "msft"))
      PollerEvent.loopCheck).taskRunning = true ∧
    (pollerStep ⟨{"AAPL"}, true⟩
      (PollerEvent.symbolError "AAPL")).taskRunning = true := by
  have h := poller_lifecycle
  exact ⟨h.2.2.2.2.1 ⟨∅, false⟩ "aapl" (fun _ => rfl),
    (h.2.2.2.1 ⟨{"AAPL"}, true⟩ "msft" rfl).1,
    h.2.1 ⟨{"AAPL"}, true⟩ "AAPL" rfl⟩
